import Mathlib

/-!
Verification of the gate pass issuance subsystem of the shining-smiles WhatsApp
service.  The Python sources (`src/services/gatepass_service.py`,
`src/webhook_handler.py`, `src/services/reminder_logic.py`, `src/config.py`)
are shallowly embedded: UTC instants become integers counting microseconds
since 1970-01-01T00:00:00Z (the resolution of Python `datetime`), database
tables become lists of records threaded through the functions, and every
external collaborator (profile API, WhatsApp delivery, S3/PDF pipeline) becomes
an explicit input recording its outcome.
-/

namespace SSWA

/-! ## Time model

A timestamp is the number of microseconds since the Unix epoch.  `days n`
is Python's `timedelta(days=n)`. -/

def usPerDay : Int := 86400000000

def days (n : Int) : Int := n * usPerDay

/-- The civil date `(y, m, d)` as a count of days since 1970-01-01
(Howard Hinnant's `days_from_civil`, with floor division). -/
def civilToDays (y m d : Int) : Int :=
  let y2 := if m ≤ 2 then y - 1 else y
  let era := y2.fdiv 400
  let yoe := y2 - era * 400
  let doy := (153 * (m + (if m > 2 then -3 else 9)) + 2).fdiv 5 + d - 1
  let doe := yoe * 365 + yoe.fdiv 4 - yoe.fdiv 100 + doy
  era * 146097 + doe - 719468

/-- Inverse of `civilToDays` (Hinnant's `civil_from_days`). -/
def daysToCivil (z0 : Int) : Int × Int × Int :=
  let z := z0 + 719468
  let era := z.fdiv 146097
  let doe := z - era * 146097
  let yoe := (doe - doe.fdiv 1460 + doe.fdiv 36524 - doe.fdiv 146096).fdiv 365
  let y := yoe + era * 400
  let doy := doe - (365 * yoe + yoe.fdiv 4 - yoe.fdiv 100)
  let mp := (5 * doy + 2).fdiv 153
  let d := doy - (153 * mp + 2).fdiv 5 + 1
  let m := mp + (if mp < 10 then 3 else -9)
  (if m ≤ 2 then y + 1 else y, m, d)

/-- `utc y m d` : the timestamp of midnight UTC on the given civil date,
like Python `datetime(y, m, d, tzinfo=timezone.utc)`. -/
def utc (y m d : Int) : Int := days (civilToDays y m d)

/-- Day number (`t.date()` as a count of days since the epoch). -/
def dayNum (t : Int) : Int := t.fdiv usPerDay

/-- Time of day in microseconds. -/
def timeOfDay (t : Int) : Int := t.emod usPerDay

/-- `.replace(day=1, hour=0, minute=0, second=0, microsecond=0)`. -/
def monthStart (t : Int) : Int :=
  let c := daysToCivil (dayNum t)
  utc c.1 c.2.1 1

/-- `.replace(day=d)` (keeps the time of day). -/
def withDay (t d : Int) : Int :=
  let c := daysToCivil (dayNum t)
  utc c.1 c.2.1 d + timeOfDay t

/-- `.replace(hour=23, minute=59, second=59, microsecond=999999)`. -/
def withLastUsOfDay (t : Int) : Int :=
  t - timeOfDay t + 86399999999

/-- `now.weekday()` : Monday = 0.  1970-01-01 was a Thursday (weekday 3). -/
def weekday (t : Int) : Int := (dayNum t + 3).emod 7

/-- `(now - timedelta(days=now.weekday())).replace(hour=0, minute=0, second=0,
microsecond=0)` — midnight of the Monday of `t`'s week. -/
def weekStart (t : Int) : Int := days (dayNum t - weekday t)

/-! ## Term calendar configuration (`config.py`) -/

def TERM_START_DATES : List (String × Int) :=
  [("2025-1", utc 2025 1 1), ("2025-2", utc 2025 5 5), ("2025-3", utc 2025 9 1),
   ("2026-1", utc 2026 1 4), ("2026-2", utc 2026 5 4), ("2026-3", utc 2026 9 7)]

def TERM_END_DATES : List (String × Int) :=
  [("2025-1", utc 2025 3 31), ("2025-2", utc 2025 7 31), ("2025-3", utc 2025 12 15),
   ("2026-1", utc 2026 4 2), ("2026-2", utc 2026 8 6), ("2026-3", utc 2026 12 3)]

/-- `dict.get(term)` on one of the two term tables. -/
def lookupTerm (tbl : List (String × Int)) (term : String) : Option Int :=
  (tbl.find? (fun p => p.1 == term)).map (fun p => p.2)

/-! ## Entitlement expiry policy (`calculate_expiry_date`) -/

/-- Outcome of `calculate_expiry_date`: the error dict for an unconfigured
term, Python `None` below the 50% threshold, or an expiry instant. -/
inductive ExpiryResult where
  | invalidTerm
  | noPass
  | expiry (t : Int)
deriving DecidableEq

/-- The threshold cascade of `calculate_expiry_date` once the term end date
has been resolved from configuration. -/
def expiry_from_term_end (term_end : Int) (payment_percentage : ℚ) (now : Int) :
    ExpiryResult :=
  if payment_percentage ≥ 100 then
    .expiry term_end
  else if payment_percentage ≥ 70 then
    let one_month_before := term_end - days 30
    .expiry (if one_month_before > now then one_month_before else now + days 1)
  else if payment_percentage ≥ 50 then
    let next_month := monthStart (now + days 32)
    let last_day_of_month := monthStart (withDay next_month 28 + days 4) - days 1
    let last_day := withLastUsOfDay last_day_of_month
    .expiry (if last_day > now then last_day else now + days 1)
  else
    .noPass

/-- `calculate_expiry_date(term, payment_percentage, payment_date)` from
`gatepass_service.py`.  `now` is the `payment_date or datetime.now()` instant. -/
def calculate_expiry_date (term : String) (payment_percentage : ℚ) (now : Int) :
    ExpiryResult :=
  match lookupTerm TERM_END_DATES term with
  | none => .invalidTerm
  | some term_end => expiry_from_term_end term_end payment_percentage now

/-! ## Weekly rate limiter (`check_and_update_rate_limit`) -/

/-- A `GatePassRequestLog` row. -/
structure RateLog where
  student_id : String
  week_start : Int
  request_count : Int
  last_request : Int
deriving DecidableEq

/-- Service tier: `'pdf'` (full), `'text'` (degraded), `'block'`. -/
inductive Tier where
  | pdf
  | text
  | block
deriving DecidableEq

/-- Tier classified from the stored (pre-increment) request count. -/
def tier_for (count : Int) : Tier :=
  if count < 3 then .pdf else if count < 5 then .text else .block

/-- `session.query(GatePassRequestLog).filter(student_id, week_start).first()`. -/
def findLog (logs : List RateLog) (sid : String) (ws : Int) : Option RateLog :=
  logs.find? (fun l => l.student_id == sid && l.week_start == ws)

/-- Increment `request_count` and refresh `last_request_date` on the first
matching row (the ORM mutation of the queried row). -/
def bumpFirst (logs : List RateLog) (sid : String) (ws : Int) (now : Int) :
    List RateLog :=
  match logs with
  | [] => []
  | l :: rest =>
    if l.student_id == sid && l.week_start == ws then
      { l with request_count := l.request_count + 1, last_request := now } :: rest
    else
      l :: bumpFirst rest sid ws now

/-- `check_and_update_rate_limit(session, student_id, extra_log)`: returns the
post-increment request count, the tier classified from the pre-increment
count, and the updated table. -/
def check_and_update_rate_limit (logs : List RateLog) (sid : String) (now : Int) :
    Int × Tier × List RateLog :=
  let ws := weekStart now
  match findLog logs sid ws with
  | none => (1, Tier.pdf, logs ++ [⟨sid, ws, 1, now⟩])
  | some l => (l.request_count + 1, tier_for l.request_count, bumpFirst logs sid ws now)

/-! ## String validation helpers

Python regex / string idioms used by `generate_gatepass`. -/

/-- ASCII whitespace stripped by Python `str.strip()`. -/
def isPyWhitespace (c : Char) : Bool :=
  c = ' ' || c = '\t' || c = '\n' || c = '\x0b' || c = '\x0c' || c = '\r'

/-- Python `str.strip()`. -/
def pyStrip (s : String) : String :=
  ⟨((s.toList.dropWhile isPyWhitespace).reverse.dropWhile isPyWhitespace).reverse⟩

/-- Python `str.upper()` (ASCII letters suffice for student ids). -/
def pyUpper (s : String) : String :=
  ⟨s.toList.map Char.toUpper⟩

/-- `re.match(r'＾SSC\d+＄', s)` as a whole-string check. -/
def matchStudentId (s : String) : Bool :=
  match s.toList with
  | 'S' :: 'S' :: 'C' :: rest => !rest.isEmpty && rest.all Char.isDigit
  | _ => false

/-- `re.match(r'＾\d{4}-\d＄', s)`. -/
def matchTermFormat (s : String) : Bool :=
  match s.toList with
  | [a, b, c, d, '-', e] => [a, b, c, d, e].all Char.isDigit
  | _ => false

/-- `re.match(r'＾\+\d{10,15}＄', s)`. -/
def matchWhatsAppNumber (s : String) : Bool :=
  match s.toList with
  | '+' :: ds => ds.all Char.isDigit && decide (10 ≤ ds.length) && decide (ds.length ≤ 15)
  | _ => false

/-- Python truthiness chain `a or b or c` over optional strings (`None` and
`""` are falsy); yields the first truthy value. -/
def firstTruthy (a b : Option String) : Option String :=
  match a with
  | some s => if s = "" then b else some s
  | none => b

def pickNumber (a b c : Option String) : Option String :=
  match firstTruthy a (firstTruthy b c) with
  | some s => if s = "" then none else some s
  | none => none

/-- Python `int()` on a rational (truncation toward zero). -/
def pyInt (q : ℚ) : Int := if q ≥ 0 then ⌊q⌋ else ⌈q⌉

/-! ## Data model (`utils/database.py`) -/

/-- A `student_contacts` row (the fields `generate_gatepass` reads). -/
structure StudentContact where
  student_id : String
  firstname : Option String
  lastname : Option String
  student_mobile : Option String
  preferred_phone_number : Option String
deriving DecidableEq

/-- A `gate_passes` row.  Note: the table has no term column. -/
structure GatePass where
  student_id : String
  pass_id : String
  issued_date : Int
  expiry_date : Int
  payment_percentage : Int
  whatsapp_number : String
deriving DecidableEq

/-- A `gate_pass_scans` row. -/
structure ScanRec where
  pass_id : String
  scanned_at : Int
  scanned_by_number : String
  matched_registered_number : Bool
deriving DecidableEq

/-- The persistent state touched by the issuance flow. -/
structure DB where
  contacts : List StudentContact
  passes : List GatePass
  rate_logs : List RateLog
deriving DecidableEq

/-! ## Entitlement issuance (`generate_gatepass`) -/

/-- Outcomes of the external collaborators consumed by one issuance request
(profile API, WhatsApp registration check, S3 presigned fetch, QR/PDF/S3
pipeline, WhatsApp delivery, uuid generator). -/
structure IssueEnv where
  jit_contact : Option StudentContact
  wa_registered : Bool
  presigned_fetch_ok : Bool
  artifact_ok : Bool
  send_ok : Bool
  fresh_pass_id : String
deriving DecidableEq

/-- The result dictionaries `generate_gatepass` can return, as a sum type. -/
inductive GPResult where
  | errMissingInput
  | errStudentIdFormat
  | errTermFormat
  | errTotalFees
  | errNegativePayment
  | errProfileNotFound
  | errNoNumber
  | errNumberFormat (number : String)
  | errNotRegistered (number : String)
  | errInvalidTerm (term : String)
  | errArtifact
  | rateLimited
  | belowThreshold
  | reusedTextOnly (pass_id : String) (expiry : Int) (number : String)
  | reusedResent (pass_id : String) (expiry : Int) (number : String)
  | issued (pass_id : String) (expiry : Int) (number : String)
  | issuedTextFallback (pass_id : String) (expiry : Int) (number : String)
deriving DecidableEq

/-- The HTTP status code paired with each result dictionary. -/
def httpStatus : GPResult → Int
  | .errMissingInput => 400
  | .errStudentIdFormat => 400
  | .errTermFormat => 400
  | .errTotalFees => 400
  | .errNegativePayment => 400
  | .errProfileNotFound => 404
  | .errNoNumber => 400
  | .errNumberFormat _ => 400
  | .errNotRegistered _ => 400
  | .errInvalidTerm _ => 400
  | .errArtifact => 500
  | .rateLimited => 429
  | _ => 200

/-- The reuse-or-issue stage of `generate_gatepass` (source lines 312-599):
look up the first stored pass for the student with `expiry_date >= now`,
reuse it when its recorded percentage is at least the newly computed one,
and otherwise persist one new row and attempt delivery. -/
def issue_or_reuse (db2 : DB) (env : IssueEnv) (student_id : String)
    (payment_percentage : ℚ) (whatsapp_number : String) (tier : Tier)
    (expiry_date : Int) (now : Int) : GPResult × DB :=
  let issued_date := now
  let existing := db2.passes.find?
    (fun p => p.student_id == student_id && decide (issued_date ≤ p.expiry_date))
  match existing with
  | some ep =>
    if (ep.payment_percentage : ℚ) ≥ payment_percentage then
      if env.presigned_fetch_ok then
        if tier = Tier.text then
          (.reusedTextOnly ep.pass_id ep.expiry_date whatsapp_number, db2)
        else
          (.reusedResent ep.pass_id ep.expiry_date whatsapp_number, db2)
      else
        (.reusedResent ep.pass_id ep.expiry_date whatsapp_number, db2)
    else
      if !env.artifact_ok then (.errArtifact, db2)
      else
        let gp : GatePass :=
          ⟨student_id, env.fresh_pass_id, issued_date, expiry_date,
            pyInt payment_percentage, whatsapp_number⟩
        let db3 := { db2 with passes := db2.passes ++ [gp] }
        if env.send_ok then
          (.issued env.fresh_pass_id expiry_date whatsapp_number, db3)
        else
          (.issuedTextFallback env.fresh_pass_id expiry_date whatsapp_number, db3)
  | none =>
    if !env.artifact_ok then (.errArtifact, db2)
    else
      let gp : GatePass :=
        ⟨student_id, env.fresh_pass_id, issued_date, expiry_date,
          pyInt payment_percentage, whatsapp_number⟩
      let db3 := { db2 with passes := db2.passes ++ [gp] }
      if env.send_ok then
        (.issued env.fresh_pass_id expiry_date whatsapp_number, db3)
      else
        (.issuedTextFallback env.fresh_pass_id expiry_date whatsapp_number, db3)

/-- `generate_gatepass(student_id, term, payment_amount, total_fees,
request_id, requesting_whatsapp_number)` from `gatepass_service.py`,
with the database state and collaborator outcomes made explicit. -/
def generate_gatepass (db : DB) (env : IssueEnv) (student_id term : String)
    (payment_amount total_fees : ℚ) (requesting_whatsapp_number : Option String)
    (now : Int) : GPResult × DB :=
  if student_id = "" ∨ term = "" then (.errMissingInput, db)
  else if !matchStudentId (pyUpper (pyStrip student_id)) then (.errStudentIdFormat, db)
  else if !matchTermFormat term then (.errTermFormat, db)
  else if total_fees ≤ 0 then (.errTotalFees, db)
  else if payment_amount < 0 then (.errNegativePayment, db)
  else
    let found := db.contacts.find? (fun c => c.student_id == student_id)
    let contactAndDb : Option StudentContact × DB :=
      match found with
      | some c => (some c, db)
      | none =>
        match env.jit_contact with
        | some c => (some c, { db with contacts := db.contacts ++ [c] })
        | none => (none, db)
    match contactAndDb.1 with
    | none => (.errProfileNotFound, contactAndDb.2)
    | some contact =>
      let db1 := contactAndDb.2
      match pickNumber requesting_whatsapp_number contact.preferred_phone_number
          contact.student_mobile with
      | none => (.errNoNumber, db1)
      | some whatsapp_number =>
        if !matchWhatsAppNumber whatsapp_number then (.errNumberFormat whatsapp_number, db1)
        else if !env.wa_registered then (.errNotRegistered whatsapp_number, db1)
        else
          let rl := check_and_update_rate_limit db1.rate_logs student_id now
          let db2 := { db1 with rate_logs := rl.2.2 }
          if rl.2.1 = Tier.block then (.rateLimited, db2)
          else
            let payment_percentage : ℚ := payment_amount / total_fees * 100
            match calculate_expiry_date term payment_percentage now with
            | .invalidTerm => (.errInvalidTerm term, db2)
            | .noPass => (.belowThreshold, db2)
            | .expiry expiry_date =>
              issue_or_reuse db2 env student_id payment_percentage whatsapp_number
                rl.2.1 expiry_date now

/-! ## Verification endpoint (`verify_gatepass`) -/

/-- The JSON outcomes of `verify_gatepass`. -/
inductive VerifyResult where
  | missing
  | notFound
  | expired
  | valid (student_id : String) (warning : Option String)
deriving DecidableEq

/-- HTTP status of each verification outcome. -/
def verifyStatus : VerifyResult → Int
  | .missing => 400
  | .notFound => 404
  | .expired => 410
  | .valid _ _ => 200

def numberMismatchWarning : String :=
  "This gate pass is not valid for your phone number."

/-- `verify_gatepass(pass_id, incoming_number, return_json=True)`:
returns the outcome and the scan table (a scan row is committed only on the
valid path, with the matched flag). -/
def verify_gatepass (passes : List GatePass) (scans : List ScanRec)
    (pass_id incoming_number : String) (now : Int) : VerifyResult × List ScanRec :=
  if pass_id = "" ∨ incoming_number = "" then (.missing, scans)
  else
    match passes.find? (fun p => p.pass_id == pass_id) with
    | none => (.notFound, scans)
    | some gate_pass =>
      if gate_pass.expiry_date < now then (.expired, scans)
      else
        let scan : ScanRec :=
          ⟨pass_id, now, incoming_number,
            gate_pass.whatsapp_number == incoming_number⟩
        let warning : Option String :=
          if gate_pass.whatsapp_number ≠ incoming_number then
            some numberMismatchWarning
          else none
        (.valid gate_pass.student_id warning, scans ++ [scan])

/-! ## Date formatting helpers used in reply texts -/

def monthName (m : Int) : String :=
  if m = 1 then "January" else if m = 2 then "February" else if m = 3 then "March"
  else if m = 4 then "April" else if m = 5 then "May" else if m = 6 then "June"
  else if m = 7 then "July" else if m = 8 then "August" else if m = 9 then "September"
  else if m = 10 then "October" else if m = 11 then "November" else "December"

def pad2 (n : Int) : String := if n < 10 then "0" ++ toString n else toString n

def padTo6 (n : Int) : String :=
  let s := toString n
  ⟨List.replicate (6 - s.length) '0'⟩ ++ s

/-- `strftime('%d %B %Y')`, e.g. `15 December 2025`. -/
def fmtDMY (t : Int) : String :=
  let c := daysToCivil (dayNum t)
  pad2 c.2.2 ++ " " ++ monthName c.2.1 ++ " " ++ toString c.1

/-- Python `datetime.isoformat()` for an aware UTC datetime (microseconds
omitted when zero). -/
def isoformat (t : Int) : String :=
  let c := daysToCivil (dayNum t)
  let r := timeOfDay t
  let secs := r.fdiv 1000000
  let us := r.emod 1000000
  toString c.1 ++ "-" ++ pad2 c.2.1 ++ "-" ++ pad2 c.2.2 ++ "T" ++
    pad2 (secs.fdiv 3600) ++ ":" ++ pad2 ((secs.emod 3600).fdiv 60) ++ ":" ++
    pad2 (secs.emod 60) ++ (if us = 0 then "" else "." ++ padTo6 us) ++ "+00:00"

/-! ## Conversation state machine (`webhook_handler.handle_whatsapp_message`,
registered-user portion, source lines 217-581) -/

def menu_text : String :=
  "──────────────\n➊ *View Balance*\n➋ *Request Statement*\n➌ *Get Gate Pass*\n──────────────\n_Reply \x27menu\x27 anytime to see options_"

/-- `start.date() <= current_date <= TERM_END_DATES[term].date()` for one
entry of `TERM_START_DATES`. -/
def termContains (d : Int) (p : String × Int) : Bool :=
  match lookupTerm TERM_END_DATES p.1 with
  | some e => decide (dayNum p.2 ≤ d) && decide (d ≤ dayNum e)
  | none => false

/-- `default_term` computation (source lines 229-235): the first configured
term whose `[start.date(), end.date()]` window contains the current date,
with a hard fallback to `"2025-3"` when none does or the code is malformed. -/
def default_term_for (d : Int) : String :=
  match TERM_START_DATES.find? (termContains d) with
  | some p => if matchTermFormat p.1 then p.1 else "2025-3"
  | none => "2025-3"

/-- `config.get_next_term` style lookup used by the (dead) no-default-term
branch: the configured term with the earliest start strictly after `d`. -/
def nextUpcomingTerm (d : Int) : Option String :=
  match TERM_START_DATES.filter (fun p => decide (d < dayNum p.2)) with
  | [] => none
  | x :: xs => some (xs.foldl (fun b p => if dayNum p.2 < dayNum b.2 then p else b) x).1

/-- `contact.firstname or 'Parent'` style Python fallback. -/
def orStr (o : Option String) (d : String) : String :=
  match o with
  | some s => if s = "" then d else s
  | none => d

/-- Display name for a student id (source lines 426, 455). -/
def nameOf (contacts : List StudentContact) (sid : String) : String :=
  match contacts.find? (fun c => c.student_id == sid) with
  | some c => pyStrip (c.firstname.getD "" ++ " " ++ c.lastname.getD "")
  | none => "Unknown"

/-- The `error` string of each non-200 result dictionary (the collapsed
QR/PDF/S3 pipeline is represented by its PDF-failure message). -/
def errorMsg : GPResult → String
  | .errMissingInput => "Both student_id and term are required"
  | .errStudentIdFormat => "Invalid student_id format (expected SSC followed by numbers)"
  | .errTermFormat => "Invalid term format (expected YYYY-N, e.g., 2025-2)"
  | .errTotalFees => "Total fees must be greater than 0"
  | .errNegativePayment => "Payment amount cannot be negative"
  | .errProfileNotFound => "Student profile not found. Please ensure the student ID is correct or contact admin@shiningsmilescollege.ac.zw"
  | .errNoNumber => "No valid WhatsApp number found for this student"
  | .errNumberFormat n => "Invalid WhatsApp number format for " ++ n ++ " (expected + followed by 10-15 digits)"
  | .errNotRegistered n => "Number " ++ n ++ " is not registered with WhatsApp. Please register or contact support."
  | .errInvalidTerm t => "Invalid term: " ++ t ++ ". Please contact support."
  | .errArtifact => "Failed to generate PDF"
  | _ => "Could not issue gate pass."

def passIdStr : GPResult → String
  | .reusedTextOnly p _ _ => p
  | .reusedResent p _ _ => p
  | .issued p _ _ => p
  | .issuedTextFallback p _ _ => p
  | _ => "None"

def expiryStr : GPResult → String
  | .reusedTextOnly _ e _ => isoformat e
  | .reusedResent _ e _ => isoformat e
  | .issued _ e _ => isoformat e
  | .issuedTextFallback _ e _ => isoformat e
  | _ => "None"

def sentToStr : GPResult → String
  | .reusedTextOnly _ _ n => n
  | .reusedResent _ _ n => n
  | .issued _ _ n => n
  | .issuedTextFallback _ _ n => n
  | _ => "None"

/-- One per-student line of the aggregated gate pass reply (source lines
424-450).  The source branches on whether the lowercased status contains
`already valid` or `resent`; of the 200-status dictionaries only the
`Gate pass already valid and resent` one does. -/
def gatepassLine (sid name : String) (r : GPResult) : String :=
  if httpStatus r = 200 then
    match r with
    | .reusedResent p e n =>
      "*Gate Pass for " ++ sid ++ " (" ++ name ++ ")*:\nYou *already have a valid gate pass*.\n*Pass ID*: " ++
        p ++ "\n*Expires*: _" ++ isoformat e ++ "_\n*PDF re-sent to*: " ++ n
    | _ =>
      "*Gate Pass for " ++ sid ++ " (" ++ name ++ ")*:\n*Gate Pass Issued!* 🎉\n*Pass ID*: " ++
        passIdStr r ++ "\n*Expires*: _" ++ expiryStr r ++ "_\n*Sent to*: " ++ sentToStr r
  else
    "*Gate Pass for " ++ sid ++ " (" ++ name ++ ")*:\n*" ++ errorMsg r ++ "*"

/-- Fault-injection sites for a conversation turn: a database error while
querying the contact/session rows (before the `try` block at source line
228), or an unhandled exception anywhere inside that `try` block. -/
structure TurnFaults where
  contact_lookup : Bool
  guarded : Bool
deriving DecidableEq

/-- External collaborator outcomes for one conversation turn: the replies
assembled from billing-API data by the statement/balance branches, and the
per-student issuance environments and `(total_paid, total_fees)` figures. -/
structure TurnEnv where
  faults : TurnFaults
  statement_reply : String
  balance_reply : String
  issue_env : String → IssueEnv
  finance : String → ℚ × ℚ

/-- Result of a turn: the reply (`none` when the Python function falls off
the end and returns `None`), the committed session state, the database, and
the student ids for which `generate_gatepass` was invoked. -/
structure TurnOut where
  reply : Option String
  state : String
  db : DB
  gatepass_calls : List String
deriving DecidableEq

def apologyMsg (fullname : String) : String :=
  "⚠️ *Hi " ++ fullname ++ ",*\n*An unexpected error occurred.* Please contact _admin@shiningsmilescollege.ac.zw_.\n" ++ menu_text

def gatepassPromptMsg (fullname : String) : String :=
  "📅 *Hi " ++ fullname ++ ",*\nPlease reply with a valid term (e.g., *2025-1*, *2025-2*, *2025-3*) for all students.\n" ++ menu_text

def gatepassNotStartedMsg (fullname term : String) : String :=
  "📅 *Hi " ++ fullname ++ ",*\nTerm *" ++ term ++ "* has not started yet. Please select a current or past term (e.g., *2025-1*, *2025-2*) for all students.\n" ++ menu_text

def gatepassTermEndedMsg (fullname term : String) (term_end : Int) : String :=
  "⛔ *Hi " ++ fullname ++ ",*\n*Gate Pass Request Denied.*\nTerm *" ++ term ++ "* ended on " ++ fmtDMY term_end ++ ". Gate passes are only issued during active school terms.\n" ++ menu_text

/-- The reply of the dead `if not default_term` branch (source lines
369-378), which names the next upcoming term's start date. -/
def gatepassNextTermMsg (fullname : String) (d : Int) : String :=
  let nt := nextUpcomingTerm d
  let ntDate :=
    match nt with
    | some t => match lookupTerm TERM_START_DATES t with
      | some s => fmtDMY s
      | none => "a future date"
    | none => "a future date"
  "📅 *Hi " ++ fullname ++ ",*\nGate passes are only issued during active school terms. Schools reopen on " ++
    ntDate ++ " for Term " ++ (nt.getD "3") ++ ". Please try again then.\n" ++ menu_text

/-- `handle_whatsapp_message` for a registered number (source lines 217-581):
dispatch on session state and normalized message text, the `try` block
guarding everything from the default-term computation onward, and the
per-student gate pass issuance loop. -/
def fullnameOf (contacts : List StudentContact) : String :=
  match contacts with
  | [] => ""
  | c :: _ => pyStrip (orStr c.firstname "Parent" ++ " " ++ orStr c.lastname "")

def studentIdsOf (contacts : List StudentContact) : List String :=
  (contacts.map (fun c => c.student_id)).filter matchStudentId

def handle_registered_turn (db : DB) (tenv : TurnEnv) (contacts : List StudentContact)
    (state0 message_body whatsapp_number : String) (now : Int) : Except Unit TurnOut :=
  if tenv.faults.contact_lookup then .error ()
  else
    let fullname := fullnameOf contacts
    let student_ids := studentIdsOf contacts
    if student_ids.isEmpty then
      .ok ⟨some ("👋 *Hi " ++ fullname ++ ",*\nNo valid student IDs registered. Please contact _admin@shiningsmilescollege.ac.zw_.\n" ++ menu_text),
        "main_menu", db, []⟩
    else if tenv.faults.guarded then
      .ok ⟨some (apologyMsg fullname), "main_menu", db, []⟩
    else
      let current_date := dayNum now
      let default_term := default_term_for current_date
      if state0 = "main_menu" then
        if message_body = "menu" then
          .ok ⟨some ("Hello, " ++ fullname ++ ".\nWhat can I help you with today?\n\n" ++ menu_text),
            "main_menu", db, []⟩
        else if message_body = "1" ∨ message_body = "balance" ∨ message_body = "view balance" then
          .ok ⟨some ("📊 *Hi " ++ fullname ++ ",*\nPlease reply with a valid term (e.g., *2025-1*, *2025-2*, *2025-3*) for all students."),
            "awaiting_term_balance", db, []⟩
        else if message_body = "2" ∨ message_body = "statement" ∨ message_body = "request statement" then
          if !matchTermFormat default_term ∨ (lookupTerm TERM_START_DATES default_term).isNone then
            .ok ⟨some ("📊 *Hi " ++ fullname ++ ",*\nPlease reply with a valid term (e.g., *2025-1*, *2025-2*, *2025-3*) for all students.\n" ++ menu_text),
              "awaiting_term_statement", db, []⟩
          else
            match lookupTerm TERM_START_DATES default_term with
            | some term_start =>
              if current_date < dayNum term_start then
                .ok ⟨some ("📅 *Hi " ++ fullname ++ ",*\nTerm *" ++ default_term ++ "* has not started yet. Please select a current or past term (e.g., *2025-1*, *2025-2*) for all students.\n" ++ menu_text),
                  "main_menu", db, []⟩
              else
                .ok ⟨some tenv.statement_reply, "main_menu", db, []⟩
            | none => .ok ⟨some tenv.statement_reply, "main_menu", db, []⟩
        else if message_body = "3" ∨ message_body = "gate pass" ∨ message_body = "get gate pass" then
          if default_term = "" then
            .ok ⟨some (gatepassNextTermMsg fullname current_date), "main_menu", db, []⟩
          else if !matchTermFormat default_term ∨ (lookupTerm TERM_START_DATES default_term).isNone then
            .ok ⟨some (gatepassPromptMsg fullname), "awaiting_term_gatepass", db, []⟩
          else
            let term_start := lookupTerm TERM_START_DATES default_term
            let term_end := lookupTerm TERM_END_DATES default_term
            if (match term_start with
                | some s => decide (current_date < dayNum s)
                | none => false) then
              .ok ⟨some (gatepassNotStartedMsg fullname default_term), "awaiting_term_gatepass", db, []⟩
            else if (match term_end with
                | some e => decide (dayNum e < current_date)
                | none => false) then
              .ok ⟨some (gatepassTermEndedMsg fullname default_term (term_end.getD 0)), "main_menu", db, []⟩
            else
              let step := fun (acc : List String × DB) (sid : String) =>
                let fin := tenv.finance sid
                let res := generate_gatepass acc.2 (tenv.issue_env sid) sid default_term
                  fin.1 fin.2 (some whatsapp_number) now
                (acc.1 ++ [gatepassLine sid (nameOf contacts sid) res.1], res.2)
              let agg := student_ids.foldl step ([], db)
              .ok ⟨some ("Gate pass issued!\n\n" ++ String.intercalate "\n\n" agg.1 ++
                  "\n\n_If not received, ensure " ++ whatsapp_number ++ " is registered with WhatsApp._\n\n_Reply \x27menu\x27 for more options._"),
                "main_menu", agg.2, student_ids⟩
        else if message_body = "help" then
          .ok ⟨some ("❓ *Hi " ++ fullname ++ ",*\n*Help*: Reply with *menu* to see options or contact _admin@shiningsmilescollege.ac.zw_ for account issues.\n" ++ menu_text),
            "main_menu", db, []⟩
        else
          .ok ⟨some ("Invalid input. Please try again.\n\n" ++ menu_text), "main_menu", db, []⟩
      else if state0 = "awaiting_term_balance" ∨ state0 = "awaiting_term_statement" ∨
          state0 = "awaiting_term_gatepass" then
        match lookupTerm TERM_START_DATES message_body with
        | some term_start =>
          if current_date < dayNum term_start then
            .ok ⟨some ("📅 *Hi " ++ fullname ++ ",*\nTerm *" ++ message_body ++ "* has not started yet. Please select a current or past term.\n" ++ menu_text),
              "main_menu", db, []⟩
          else if state0 = "awaiting_term_balance" then
            .ok ⟨some tenv.balance_reply, "main_menu", db, []⟩
          else
            .ok ⟨none, state0, db, []⟩
        | none =>
          .ok ⟨some ("📅 *Hi " ++ fullname ++ ",*\n*Invalid term.* Please reply with a valid term (e.g., *2025-1*, *2025-2*, *2025-3*)."),
            state0, db, []⟩
      else
        .ok ⟨some ("Invalid state. Please reply \x27menu\x27 to start over.\n\n" ++ menu_text),
          "main_menu", db, []⟩

/-- The session state stored in the database after a turn: an uncaught
exception aborts the turn before any new state is committed, so the row
keeps its previous value. -/
def storedStateAfter (state0 : String) (out : Except Unit TurnOut) : String :=
  match out with
  | .ok t => t.state
  | .error _ => state0

/-! ## Reminder throttling (`reminder_logic.should_send_reminder` with the
week computations of `config.py`) -/

/-- `cfg.weeks_remaining(term)`: `max(0, (end - today).days // 7)`. -/
def weeks_remaining (term : String) (now : Int) : Option Int :=
  (lookupTerm TERM_END_DATES term).map (fun e => max 0 (((e - now).fdiv usPerDay).fdiv 7))

/-- `cfg.weeks_elapsed(term)`: `max(0, (today - start).days // 7)`. -/
def weeks_elapsed (term : String) (now : Int) : Option Int :=
  (lookupTerm TERM_START_DATES term).map (fun s => max 0 (((now - s).fdiv usPerDay).fdiv 7))

/-- The reminder-relevant part of a `UserState` row. -/
structure ReminderState where
  last_updated : Option Int

/-- `should_send_reminder(user_state, term)`: `.error ()` models the raised
`ValueError` for an unconfigured term. -/
def should_send_reminder (user_state : Option ReminderState) (term : String)
    (now : Int) : Except Unit Bool :=
  match user_state with
  | none => .ok true
  | some us =>
    match us.last_updated with
    | none => .ok true
    | some last =>
      if (lookupTerm TERM_START_DATES term).isNone then .error ()
      else
        match weeks_remaining term now, weeks_elapsed term now with
        | some weeks_left, some wel =>
          let days_since_last := (now - last).fdiv usPerDay
          .ok (if weeks_left ≤ 2 then decide (days_since_last ≥ 2)
               else if weeks_left ≤ 4 then decide (days_since_last ≥ 4)
               else if wel ≥ 2 then decide (days_since_last ≥ 7)
               else false)
        | _, _ => .error ()

/-! ## Iterated rate-limit calls -/

/-- The sequence of (returned count, tier) pairs produced by consecutive
rate-limit checks at the given instants, threading the log table. -/
def rateLimitRun (sid : String) : List Int → List RateLog → List (Int × Tier)
  | [], _ => []
  | t :: ts, logs =>
    let r := check_and_update_rate_limit logs sid t
    (r.1, r.2.1) :: rateLimitRun sid ts r.2.2

/-! ## Concrete fixtures used by the closed theorems -/

def sampleContact : StudentContact :=
  ⟨"SSC1001", some "Ada", some "Moyo", some "+263771234567", some "+263771234567"⟩

def sampleEnv : IssueEnv := ⟨none, true, true, true, true, "fresh-id"⟩

/-- An older, still-valid 50% pass stored before `newerPass`. -/
def oldPass : GatePass :=
  ⟨"SSC1001", "old-pass", utc 2026 1 10, utc 2026 3 20, 50, "+263771234567"⟩

/-- The most recent pass: issued later, higher percentage, later expiry. -/
def newerPass : GatePass :=
  ⟨"SSC1001", "newer-pass", utc 2026 2 20, utc 2026 4 2, 70, "+263771234567"⟩

def c1db : DB := ⟨[sampleContact], [oldPass, newerPass], []⟩

/-- A turn environment with a fault injected at the contact lookup. -/
def faultTenv : TurnEnv :=
  ⟨⟨true, false⟩, "", "", fun _ => sampleEnv, fun _ => (0, 0)⟩

/-- A fault-free turn environment. -/
def okTenv : TurnEnv :=
  ⟨⟨false, false⟩, "", "", fun _ => sampleEnv, fun _ => (600, 1000)⟩

/-- A turn environment with a fault injected inside the guarded region. -/
def guardedTenv : TurnEnv :=
  ⟨⟨false, true⟩, "", "", fun _ => sampleEnv, fun _ => (0, 0)⟩

/-! ## Shared lemmas -/

theorem infix_append_right {α : Type} {e b : List α} (a : List α)
    (h : e <:+: b) : e <:+: a ++ b := by
  obtain ⟨s, t, rfl⟩ := h
  exact ⟨a ++ s, t, by simp⟩

theorem infix_extend_right {α : Type} {e a : List α} (c : List α)
    (h : e <:+: a) : e <:+: a ++ c := by
  obtain ⟨s, t, rfl⟩ := h
  exact ⟨s, t ++ c, by simp⟩

/-- For a configured term the expiry policy is the threshold cascade applied
to the configured end date. -/
theorem calculate_expiry_date_config (term : String) (term_end : Int)
    (payment_percentage : ℚ) (now : Int)
    (hcfg : lookupTerm TERM_END_DATES term = some term_end) :
    calculate_expiry_date term payment_percentage now =
      expiry_from_term_end term_end payment_percentage now := by
  unfold calculate_expiry_date
  rw [hcfg]

/-- When all input validations, the contact lookup, the channel resolution
and the WhatsApp registration check succeed, `generate_gatepass` reduces to
the rate-limit gate followed by the expiry computation and the
reuse-or-issue decision. -/
theorem generate_gatepass_reaches_decision (db : DB) (env : IssueEnv)
    (student_id term : String) (payment_amount total_fees : ℚ)
    (requesting_whatsapp_number : Option String) (now : Int)
    (contact : StudentContact) (whatsapp_number : String)
    (hsid : student_id ≠ "") (hterm : term ≠ "")
    (hfmt : matchStudentId (pyUpper (pyStrip student_id)) = true)
    (htfmt : matchTermFormat term = true)
    (htot : 0 < total_fees) (hpay : 0 ≤ payment_amount)
    (hc : db.contacts.find? (fun c => c.student_id == student_id) = some contact)
    (hn : pickNumber requesting_whatsapp_number contact.preferred_phone_number
        contact.student_mobile = some whatsapp_number)
    (hwf : matchWhatsAppNumber whatsapp_number = true)
    (hreg : env.wa_registered = true) :
    generate_gatepass db env student_id term payment_amount total_fees
        requesting_whatsapp_number now =
      (let rl := check_and_update_rate_limit db.rate_logs student_id now
       let db2 : DB := { db with rate_logs := rl.2.2 }
       if rl.2.1 = Tier.block then (.rateLimited, db2)
       else
         match calculate_expiry_date term (payment_amount / total_fees * 100) now with
         | .invalidTerm => (.errInvalidTerm term, db2)
         | .noPass => (.belowThreshold, db2)
         | .expiry e =>
           issue_or_reuse db2 env student_id (payment_amount / total_fees * 100)
             whatsapp_number rl.2.1 e now) := by
  unfold generate_gatepass
  simp [hsid, hterm, hfmt, htfmt, not_le.mpr htot, not_lt.mpr hpay, hc, hn, hwf, hreg]

/-! ## C4 : expiry for the 70% band -/

/-- Claim C4 (counterexample): for the configured term `2026-1`
(end 2026-04-02) at 70% with `now` = noon on 2026-03-02, the computed
expiry is 2026-03-03 00:00, which is earlier than `now + 1 day`
(2026-03-03 12:00) — the result is not floored at tomorrow. -/
theorem C4_counterexample :
    calculate_expiry_date "2026-1" 70 (utc 2026 3 2 + 43200000000) =
      .expiry (utc 2026 3 3) ∧
    utc 2026 3 3 < (utc 2026 3 2 + 43200000000) + days 1 := by
  constructor
  · decide
  · decide

/-- Claim C4 (amended): for a configured term and `70 ≤ p < 100` the expiry
is `term_end - 30 days` whenever that instant is strictly later than `now`,
and `now + 1 day` otherwise; it is always strictly later than `now` (but not
necessarily later than `now + 1 day`). -/
theorem C4_seventy_band (term : String) (term_end : Int) (pct : ℚ) (now : Int)
    (hcfg : lookupTerm TERM_END_DATES term = some term_end)
    (h1 : 70 ≤ pct) (h2 : pct < 100) :
    calculate_expiry_date term pct now =
      .expiry (if term_end - days 30 > now then term_end - days 30 else now + days 1) ∧
    ∀ e, calculate_expiry_date term pct now = .expiry e → now < e := by
  have hmain : calculate_expiry_date term pct now =
      .expiry (if term_end - days 30 > now then term_end - days 30 else now + days 1) := by
    rw [calculate_expiry_date_config term term_end pct now hcfg]
    unfold expiry_from_term_end
    rw [if_neg (not_le.mpr h2), if_pos h1]
  refine ⟨hmain, ?_⟩
  intro e he
  rw [hmain] at he
  have he2 := (ExpiryResult.expiry.injEq _ _).mp he.symm
  by_cases hb : term_end - days 30 > now
  · rw [if_pos hb] at he2
    omega
  · rw [if_neg hb] at he2
    have : (0 : Int) < days 1 := by decide
    omega

/-- Claim C4 (witness): the spec scenario — term end 2026-04-02,
now 2026-03-01, 70% → expiry 2026-03-03, which here is indeed no earlier
than tomorrow. -/
theorem C4_witness :
    lookupTerm TERM_END_DATES "2026-1" = some (utc 2026 4 2) ∧
    calculate_expiry_date "2026-1" 70 (utc 2026 3 1) = .expiry (utc 2026 3 3) := by
  refine ⟨by decide, ?_⟩
  have h := (C4_seventy_band "2026-1" (utc 2026 4 2) 70 (utc 2026 3 1)
    (by decide) (by norm_num) (by norm_num)).1
  rw [h]
  decide

/-! ## C5 : monotonicity of the expiry policy in the payment percentage -/

/-- Claim C5 (counterexample): with the configured term `2026-1` and
`now` = 2026-03-01, paying 55% yields expiry 2026-04-30 23:59:59.999999
while paying 70% yields 2026-03-03 — a strictly *earlier* expiry for the
strictly higher percentage, with no floor-at-tomorrow clamp involved. -/
theorem C5_counterexample :
    (55 : ℚ) ≤ 70 ∧
    calculate_expiry_date "2026-1" 55 (utc 2026 3 1) =
      .expiry (utc 2026 4 30 + 86399999999) ∧
    calculate_expiry_date "2026-1" 70 (utc 2026 3 1) = .expiry (utc 2026 3 3) ∧
    utc 2026 3 3 < utc 2026 4 30 + 86399999999 ∧
    utc 2026 3 1 < utc 2026 3 3 := by
  refine ⟨by norm_num, by decide, by decide, by decide, by decide⟩

/-- Claim C5 (amended): for a fixed configured term and `now`, the expiry is
constant on each payment band (`[50,70)`, `[70,100)`, `[100,∞)`), hence
non-decreasing within a band; and it is non-decreasing from the 70-band to
the 100-band whenever `term_end - 30 days` is later than `now`.  Across the
50/70 boundary it can strictly decrease. -/
theorem C5_banded_monotonicity (term : String) (term_end : Int) (now : Int)
    (p1 p2 : ℚ) (hcfg : lookupTerm TERM_END_DATES term = some term_end) :
    (((50 ≤ p1 ∧ p1 < 70 ∧ 50 ≤ p2 ∧ p2 < 70) ∨
      (70 ≤ p1 ∧ p1 < 100 ∧ 70 ≤ p2 ∧ p2 < 100) ∨
      (100 ≤ p1 ∧ 100 ≤ p2)) →
      calculate_expiry_date term p1 now = calculate_expiry_date term p2 now) ∧
    (70 ≤ p1 → p1 < 100 → 100 ≤ p2 → now < term_end - days 30 →
      ∀ e1 e2, calculate_expiry_date term p1 now = .expiry e1 →
        calculate_expiry_date term p2 now = .expiry e2 → e1 ≤ e2) := by
  constructor
  · rintro (⟨a1, b1, a2, b2⟩ | ⟨a1, b1, a2, b2⟩ | ⟨a1, a2⟩) <;>
      rw [calculate_expiry_date_config term term_end p1 now hcfg,
        calculate_expiry_date_config term term_end p2 now hcfg] <;>
      unfold expiry_from_term_end
    · rw [if_neg (not_le.mpr (by linarith : p1 < 100)),
        if_neg (not_le.mpr (by linarith : p1 < 70)), if_pos a1,
        if_neg (not_le.mpr (by linarith : p2 < 100)),
        if_neg (not_le.mpr (by linarith : p2 < 70)), if_pos a2]
    · rw [if_neg (not_le.mpr b1), if_pos a1, if_neg (not_le.mpr b2), if_pos a2]
    · rw [if_pos a1, if_pos a2]
  · intro h1 h2 h3 hclamp e1 e2 he1 he2
    rw [calculate_expiry_date_config term term_end p1 now hcfg] at he1
    rw [calculate_expiry_date_config term term_end p2 now hcfg] at he2
    unfold expiry_from_term_end at he1 he2
    rw [if_neg (not_le.mpr h2), if_pos h1] at he1
    simp only [gt_iff_lt] at he1
    rw [if_pos hclamp] at he1
    rw [if_pos h3] at he2
    have g1 := (ExpiryResult.expiry.injEq _ _).mp he1.symm
    have g2 := (ExpiryResult.expiry.injEq _ _).mp he2.symm
    have : (0 : Int) ≤ days 30 := by decide
    omega

/-- Claim C5 (witness): within the 50-band the expiry at 52% and 65% agree,
and from 70% to 100% (with `now` = 2026-01-10, before `term_end - 30 days`)
the expiry does not decrease. -/
theorem C5_witness :
    calculate_expiry_date "2026-1" 52 (utc 2026 3 1) =
      calculate_expiry_date "2026-1" 65 (utc 2026 3 1) ∧
    utc 2026 3 3 ≤ utc 2026 4 2 := by
  constructor
  · exact (C5_banded_monotonicity "2026-1" (utc 2026 4 2) (utc 2026 3 1) 52 65
      (by decide)).1 (Or.inl (by norm_num))
  · exact (C5_banded_monotonicity "2026-1" (utc 2026 4 2) (utc 2026 1 10) 70 100
      (by decide)).2 (by norm_num) (by norm_num) (by norm_num) (by decide)
      (utc 2026 3 3) (utc 2026 4 2) (by decide) (by decide)

/-! ## C6 : below-threshold requests issue nothing -/

/-- Claim C6: when the computed payment percentage is below 50 the expiry
policy returns `None`, `generate_gatepass` returns the below-threshold
outcome with HTTP status 200 (a normal result, not an error), and no gate
pass row is persisted. -/
theorem C6_below_threshold (db : DB) (env : IssueEnv)
    (student_id term : String) (payment_amount total_fees : ℚ)
    (requesting_whatsapp_number : Option String) (now : Int)
    (contact : StudentContact) (whatsapp_number : String) (term_end : Int)
    (hsid : student_id ≠ "") (hterm : term ≠ "")
    (hfmt : matchStudentId (pyUpper (pyStrip student_id)) = true)
    (htfmt : matchTermFormat term = true)
    (htot : 0 < total_fees) (hpay : 0 ≤ payment_amount)
    (hc : db.contacts.find? (fun c => c.student_id == student_id) = some contact)
    (hn : pickNumber requesting_whatsapp_number contact.preferred_phone_number
        contact.student_mobile = some whatsapp_number)
    (hwf : matchWhatsAppNumber whatsapp_number = true)
    (hreg : env.wa_registered = true)
    (hcfg : lookupTerm TERM_END_DATES term = some term_end)
    (htier : (check_and_update_rate_limit db.rate_logs student_id now).2.1 ≠ Tier.block)
    (hpct : payment_amount / total_fees * 100 < 50) :
    calculate_expiry_date term (payment_amount / total_fees * 100) now = .noPass ∧
    generate_gatepass db env student_id term payment_amount total_fees
        requesting_whatsapp_number now =
      (.belowThreshold,
        { db with rate_logs := (check_and_update_rate_limit db.rate_logs student_id now).2.2 }) ∧
    (generate_gatepass db env student_id term payment_amount total_fees
        requesting_whatsapp_number now).2.passes = db.passes ∧
    httpStatus (generate_gatepass db env student_id term payment_amount total_fees
        requesting_whatsapp_number now).1 = 200 := by
  have hnp : calculate_expiry_date term (payment_amount / total_fees * 100) now = .noPass := by
    rw [calculate_expiry_date_config term term_end _ now hcfg]
    unfold expiry_from_term_end
    rw [if_neg (not_le.mpr (by linarith : payment_amount / total_fees * 100 < 100)),
      if_neg (not_le.mpr (by linarith : payment_amount / total_fees * 100 < 70)),
      if_neg (not_le.mpr hpct)]
  have hred := generate_gatepass_reaches_decision db env student_id term payment_amount
    total_fees requesting_whatsapp_number now contact whatsapp_number hsid hterm hfmt htfmt
    htot hpay hc hn hwf hreg
  refine ⟨hnp, ?_, ?_, ?_⟩ <;> (rw [hred]; simp only [hnp, if_neg htier]; try rfl)

/-- Claim C6 (witness): a concrete 49% request (490 paid of 1000 due). -/
theorem C6_witness :
    calculate_expiry_date "2026-1" ((490 : ℚ) / 1000 * 100) (utc 2026 3 1) = .noPass ∧
    (generate_gatepass
        ⟨[⟨"SSC1001", some "Ada", some "Moyo", some "+263771234567", some "+263771234567"⟩],
          [], []⟩
        ⟨none, true, true, true, true, "fresh-id"⟩ "SSC1001" "2026-1" 490 1000
        (some "+263771234567") (utc 2026 3 1)).1 = .belowThreshold ∧
    (generate_gatepass
        ⟨[⟨"SSC1001", some "Ada", some "Moyo", some "+263771234567", some "+263771234567"⟩],
          [], []⟩
        ⟨none, true, true, true, true, "fresh-id"⟩ "SSC1001" "2026-1" 490 1000
        (some "+263771234567") (utc 2026 3 1)).2.passes = [] := by
  have h := C6_below_threshold
    ⟨[⟨"SSC1001", some "Ada", some "Moyo", some "+263771234567", some "+263771234567"⟩], [], []⟩
    ⟨none, true, true, true, true, "fresh-id"⟩ "SSC1001" "2026-1" 490 1000
    (some "+263771234567") (utc 2026 3 1)
    ⟨"SSC1001", some "Ada", some "Moyo", some "+263771234567", some "+263771234567"⟩
    "+263771234567" (utc 2026 4 2)
    (by decide) (by decide) (by decide) (by decide) (by norm_num) (by norm_num)
    (by decide) (by decide) (by decide) (by decide) (by decide) (by decide) (by norm_num)
  exact ⟨h.1, by rw [h.2.1], h.2.2.1⟩

/-! ## C2 : the count returned by the rate limiter -/

theorem findLog_append_of_none (logs rest : List RateLog) (sid : String) (ws : Int)
    (h : findLog logs sid ws = none) :
    findLog (logs ++ rest) sid ws = findLog rest sid ws := by
  induction logs with
  | nil => rfl
  | cons hd tl ih =>
    rcases hm : (hd.student_id == sid && hd.week_start == ws) with _ | _
    · simp only [findLog, List.cons_append, List.find?_cons, hm] at h ⊢
      exact ih h
    · simp only [findLog, List.find?_cons, hm] at h
      exact Option.noConfusion h

theorem findLog_bumpFirst (logs : List RateLog) (sid : String) (ws now : Int)
    (l : RateLog) (h : findLog logs sid ws = some l) :
    findLog (bumpFirst logs sid ws now) sid ws =
      some { l with request_count := l.request_count + 1, last_request := now } := by
  induction logs with
  | nil => simp [findLog] at h
  | cons hd tl ih =>
    rcases hm : (hd.student_id == sid && hd.week_start == ws) with _ | _
    · simp only [findLog, List.find?_cons, hm] at h
      simp only [bumpFirst, hm, Bool.false_eq_true, if_false]
      simp only [findLog, List.find?_cons, hm]
      exact ih h
    · simp only [findLog, List.find?_cons, hm, Option.some.injEq] at h
      subst h
      simp only [bumpFirst, hm, if_true]
      exact List.find?_cons_of_pos _ hm

theorem check_and_update_rate_limit_of_none (logs : List RateLog) (sid : String)
    (now : Int) (h : findLog logs sid (weekStart now) = none) :
    check_and_update_rate_limit logs sid now =
      (1, Tier.pdf, logs ++ [⟨sid, weekStart now, 1, now⟩]) := by
  simp only [check_and_update_rate_limit, h]

theorem check_and_update_rate_limit_of_some (logs : List RateLog) (sid : String)
    (now : Int) (l : RateLog) (h : findLog logs sid (weekStart now) = some l) :
    check_and_update_rate_limit logs sid now =
      (l.request_count + 1, tier_for l.request_count,
        bumpFirst logs sid (weekStart now) now) := by
  simp only [check_and_update_rate_limit, h]

/-- Claim C2 (counterexample): the very first request of a week returns a
count of 1, not the pre-increment count 0 that the claim asserts. -/
theorem C2_counterexample :
    (check_and_update_rate_limit [] "SSC1001" (utc 2026 3 4)).1 = 1 ∧
    (check_and_update_rate_limit [] "SSC1001" (utc 2026 3 4)).2.1 = Tier.pdf ∧
    ((1 : Int) = 0 → False) := by
  refine ⟨by decide, by decide, by decide⟩

/-- Claim C2 (amended): `check_and_update_rate_limit` returns the
*post-increment* count — one more than the stored pre-increment count
(0 for a fresh week) — paired with the tier classified from the
pre-increment count; afterwards the stored count equals the returned
count. -/
theorem C2_post_increment_count (logs : List RateLog) (sid : String) (now : Int) :
    (check_and_update_rate_limit logs sid now).1 =
      (findLog logs sid (weekStart now)).elim 0 (fun l => l.request_count) + 1 ∧
    (check_and_update_rate_limit logs sid now).2.1 =
      tier_for ((findLog logs sid (weekStart now)).elim 0 (fun l => l.request_count)) ∧
    ∃ l2, findLog (check_and_update_rate_limit logs sid now).2.2 sid (weekStart now) =
        some l2 ∧
      l2.request_count = (check_and_update_rate_limit logs sid now).1 := by
  rcases hf : findLog logs sid (weekStart now) with _ | l
  · rw [check_and_update_rate_limit_of_none logs sid now hf]
    refine ⟨rfl, by simp [tier_for], ?_⟩
    refine ⟨⟨sid, weekStart now, 1, now⟩, ?_, rfl⟩
    rw [findLog_append_of_none logs _ sid (weekStart now) hf]
    simp [findLog]
  · rw [check_and_update_rate_limit_of_some logs sid now l hf]
    refine ⟨by simp, by simp, ?_⟩
    refine ⟨{ l with request_count := l.request_count + 1, last_request := now }, ?_, by simp⟩
    exact findLog_bumpFirst logs sid (weekStart now) now l hf

/-! ## C10 : verifying a gate pass -/

/-- Claim C10: an unknown pass id yields the 404 outcome; a pass whose
expiry is in the future yields the 200 "valid" outcome even when the
incoming number differs from the registered one — the mismatch only sets
the warning string and is recorded on the committed scan row — and a pass
whose expiry has passed yields the 410 outcome with no scan row. -/
theorem C10_verify_outcomes (passes : List GatePass) (scans : List ScanRec)
    (pass_id incoming_number : String) (now : Int)
    (hp : pass_id ≠ "") (hn : incoming_number ≠ "") :
    (passes.find? (fun p => p.pass_id == pass_id) = none →
      verify_gatepass passes scans pass_id incoming_number now = (.notFound, scans) ∧
      verifyStatus (verify_gatepass passes scans pass_id incoming_number now).1 = 404) ∧
    (∀ gp, passes.find? (fun p => p.pass_id == pass_id) = some gp →
      now < gp.expiry_date →
      verify_gatepass passes scans pass_id incoming_number now =
        (.valid gp.student_id
          (if gp.whatsapp_number ≠ incoming_number then some numberMismatchWarning
           else none),
         scans ++ [⟨pass_id, now, incoming_number,
           gp.whatsapp_number == incoming_number⟩]) ∧
      verifyStatus (verify_gatepass passes scans pass_id incoming_number now).1 = 200) ∧
    (∀ gp, passes.find? (fun p => p.pass_id == pass_id) = some gp →
      gp.expiry_date < now →
      verify_gatepass passes scans pass_id incoming_number now = (.expired, scans) ∧
      verifyStatus (verify_gatepass passes scans pass_id incoming_number now).1 = 410) := by
  refine ⟨?_, ?_, ?_⟩
  · intro hfind
    have e : verify_gatepass passes scans pass_id incoming_number now = (.notFound, scans) := by
      unfold verify_gatepass
      rw [if_neg (by simp [hp, hn]), hfind]
    exact ⟨e, by rw [e]; rfl⟩
  · intro gp hfind hfut
    have e : verify_gatepass passes scans pass_id incoming_number now =
        (.valid gp.student_id
          (if gp.whatsapp_number ≠ incoming_number then some numberMismatchWarning
           else none),
         scans ++ [⟨pass_id, now, incoming_number,
           gp.whatsapp_number == incoming_number⟩]) := by
      unfold verify_gatepass
      rw [if_neg (by simp [hp, hn]), hfind]
      simp only [if_neg (not_lt.mpr (le_of_lt hfut))]
    exact ⟨e, by rw [e]; rfl⟩
  · intro gp hfind hpast
    have e : verify_gatepass passes scans pass_id incoming_number now = (.expired, scans) := by
      unfold verify_gatepass
      rw [if_neg (by simp [hp, hn]), hfind]
      simp only [if_pos hpast]
    exact ⟨e, by rw [e]; rfl⟩

/-- Claim C10 (witness): a future-dated pass scanned from a different phone
number is still valid with a warning, scan row recorded as unmatched. -/
theorem C10_witness :
    verify_gatepass
        [⟨"SSC1001", "pass-1", utc 2026 3 1, utc 2026 3 20, 70, "+263771234567"⟩]
        [] "pass-1" "+263779999999" (utc 2026 3 10) =
      (.valid "SSC1001" (some numberMismatchWarning),
        [⟨"pass-1", utc 2026 3 10, "+263779999999", false⟩]) ∧
    verify_gatepass
        [⟨"SSC1001", "pass-1", utc 2026 3 1, utc 2026 3 20, 70, "+263771234567"⟩]
        [] "pass-2" "+263779999999" (utc 2026 3 10) = (.notFound, []) ∧
    verify_gatepass
        [⟨"SSC1001", "pass-1", utc 2026 3 1, utc 2026 3 20, 70, "+263771234567"⟩]
        [] "pass-1" "+263779999999" (utc 2026 4 10) = (.expired, []) := by
  refine ⟨?_, ?_, ?_⟩
  · have h := ((C10_verify_outcomes
      [⟨"SSC1001", "pass-1", utc 2026 3 1, utc 2026 3 20, 70, "+263771234567"⟩]
      [] "pass-1" "+263779999999" (utc 2026 3 10) (by decide) (by decide)).2.1
      ⟨"SSC1001", "pass-1", utc 2026 3 1, utc 2026 3 20, 70, "+263771234567"⟩
      (by decide) (by decide)).1
    rw [h]
    decide
  · exact ((C10_verify_outcomes
      [⟨"SSC1001", "pass-1", utc 2026 3 1, utc 2026 3 20, 70, "+263771234567"⟩]
      [] "pass-2" "+263779999999" (utc 2026 3 10) (by decide) (by decide)).1
      (by decide)).1
  · exact ((C10_verify_outcomes
      [⟨"SSC1001", "pass-1", utc 2026 3 1, utc 2026 3 20, 70, "+263771234567"⟩]
      [] "pass-1" "+263779999999" (utc 2026 4 10) (by decide) (by decide)).2.2
      ⟨"SSC1001", "pass-1", utc 2026 3 1, utc 2026 3 20, 70, "+263771234567"⟩
      (by decide) (by decide)).1

/-! ## C9 : reminder re-notify throttling -/

theorem fdiv_usPerDay_eq (a : Int) : a.fdiv usPerDay = a / usPerDay :=
  Int.fdiv_eq_ediv a (by norm_num [usPerDay])

theorem fdiv_seven_eq (a : Int) : a.fdiv 7 = a / 7 :=
  Int.fdiv_eq_ediv a (by norm_num)

/-- In every configured term (all at least 87 days long), four or fewer
weeks remaining forces at least two weeks elapsed. -/
theorem reminder_weeks_key (s e now : Int) (hlen : 87 * usPerDay ≤ e - s)
    (h : max 0 (((e - now).fdiv usPerDay).fdiv 7) ≤ 4) :
    2 ≤ max 0 (((now - s).fdiv usPerDay).fdiv 7) := by
  rw [fdiv_usPerDay_eq, fdiv_seven_eq] at h ⊢
  unfold usPerDay at hlen h ⊢
  omega

/-- Matching entries of the two term tables are at least 87 days apart. -/
theorem term_tables_length :
    ∀ p ∈ TERM_START_DATES, ∀ q ∈ TERM_END_DATES, p.1 = q.1 →
      87 * usPerDay ≤ q.2 - p.2 := by decide

/-- All six configured terms are at least 87 days long. -/
theorem configured_term_length (term : String) (s e : Int)
    (hs : lookupTerm TERM_START_DATES term = some s)
    (he : lookupTerm TERM_END_DATES term = some e) :
    87 * usPerDay ≤ e - s := by
  obtain ⟨pr, hfind, hps⟩ := Option.map_eq_some'.mp hs
  obtain ⟨qr, hfind2, hqs⟩ := Option.map_eq_some'.mp he
  have hmem := List.mem_of_find?_eq_some hfind
  have hmem2 := List.mem_of_find?_eq_some hfind2
  have hkey := List.find?_some hfind
  have hkey2 := List.find?_some hfind2
  simp only [beq_iff_eq] at hkey hkey2
  have := term_tables_length pr hmem qr hmem2 (hkey.trans hkey2.symm)
  rw [hps, hqs] at this
  exact this

/-- Claim C9: for a session row with a last-reminder timestamp and a
configured term, a reminder is sent iff the days since the last reminder
meet the tier given by the weeks remaining (≥ 2 days when ≤ 2 weeks remain,
≥ 4 days when 3-4 weeks remain, ≥ 7 days otherwise), and never before two
weeks of the term have elapsed. -/
theorem C9_reminder_tiering (term : String) (s e : Int)
    (hs : lookupTerm TERM_START_DATES term = some s)
    (he : lookupTerm TERM_END_DATES term = some e)
    (last now : Int) :
    (should_send_reminder (some ⟨some last⟩) term now = .ok true ↔
      ((max 0 (((e - now).fdiv usPerDay).fdiv 7) ≤ 2 ∧ 2 ≤ (now - last).fdiv usPerDay) ∨
       (3 ≤ max 0 (((e - now).fdiv usPerDay).fdiv 7) ∧
         max 0 (((e - now).fdiv usPerDay).fdiv 7) ≤ 4 ∧ 4 ≤ (now - last).fdiv usPerDay) ∨
       (5 ≤ max 0 (((e - now).fdiv usPerDay).fdiv 7) ∧
         2 ≤ max 0 (((now - s).fdiv usPerDay).fdiv 7) ∧
         7 ≤ (now - last).fdiv usPerDay))) ∧
    (max 0 (((now - s).fdiv usPerDay).fdiv 7) ≤ 1 →
      should_send_reminder (some ⟨some last⟩) term now = .ok false) := by
  have hlen := configured_term_length term s e hs he
  have hcode : should_send_reminder (some ⟨some last⟩) term now =
      .ok (if max 0 (((e - now).fdiv usPerDay).fdiv 7) ≤ 2 then
             decide (2 ≤ (now - last).fdiv usPerDay)
           else if max 0 (((e - now).fdiv usPerDay).fdiv 7) ≤ 4 then
             decide (4 ≤ (now - last).fdiv usPerDay)
           else if 2 ≤ max 0 (((now - s).fdiv usPerDay).fdiv 7) then
             decide (7 ≤ (now - last).fdiv usPerDay)
           else false) := by
    simp only [should_send_reminder, weeks_remaining, weeks_elapsed, he, hs,
      Option.map_some', Option.isNone_some, Bool.false_eq_true, if_false, ge_iff_le]
  set wl := max 0 (((e - now).fdiv usPerDay).fdiv 7) with hwl
  set wel := max 0 (((now - s).fdiv usPerDay).fdiv 7) with hwel
  set ds := (now - last).fdiv usPerDay with hds
  have hkey : wl ≤ 4 → 2 ≤ wel := fun h => reminder_weeks_key s e now hlen h
  constructor
  · rw [hcode]
    simp only [Except.ok.injEq]
    by_cases h1 : wl ≤ 2
    · simp only [if_pos h1, decide_eq_true_eq]
      constructor
      · intro hd
        exact Or.inl ⟨h1, hd⟩
      · rintro (⟨_, hd⟩ | ⟨h3, _, _⟩ | ⟨h5, _, _⟩)
        · exact hd
        · omega
        · omega
    · by_cases h2 : wl ≤ 4
      · simp only [if_neg h1, if_pos h2, decide_eq_true_eq]
        constructor
        · intro hd
          exact Or.inr (Or.inl ⟨by omega, h2, hd⟩)
        · rintro (⟨hle, _⟩ | ⟨_, _, hd⟩ | ⟨h5, _, _⟩)
          · omega
          · exact hd
          · omega
      · by_cases h3 : 2 ≤ wel
        · simp only [if_neg h1, if_neg h2, if_pos h3, decide_eq_true_eq]
          constructor
          · intro hd
            exact Or.inr (Or.inr ⟨by omega, h3, hd⟩)
          · rintro (⟨hle, _⟩ | ⟨_, hle, _⟩ | ⟨_, _, hd⟩)
            · omega
            · omega
            · exact hd
        · simp only [if_neg h1, if_neg h2, if_neg h3, Bool.false_eq_true, false_iff]
          rintro (⟨hle, _⟩ | ⟨_, hle, _⟩ | ⟨_, hwe, _⟩)
          · omega
          · omega
          · omega
  · intro hearly
    rw [hcode]
    have h4 : ¬ wl ≤ 4 := fun h => by have := hkey h; omega
    rw [if_neg (by omega : ¬ wl ≤ 2), if_neg h4, if_neg (by omega : ¬ 2 ≤ wel)]

/-- Claim C9 (witness): term `2026-1` (2026-01-04 … 2026-04-02), now
2026-03-25 (one week remaining), last reminder 2026-03-22 (3 days earlier):
the final-weeks 2-day tier fires. -/
theorem C9_witness :
    should_send_reminder (some ⟨some (utc 2026 3 22)⟩) "2026-1" (utc 2026 3 25) =
      .ok true := by
  rw [(C9_reminder_tiering "2026-1" (utc 2026 1 4) (utc 2026 4 2) (by decide) (by decide)
    (utc 2026 3 22) (utc 2026 3 25)).1]
  left
  constructor
  · decide
  · decide

/-! ## C3 : weekly tier sequence and the blocked sixth call -/

theorem tier_for_nat (k : ℕ) :
    tier_for (k : Int) =
      (if k < 3 then Tier.pdf else if k < 5 then Tier.text else Tier.block) := by
  unfold tier_for
  by_cases h1 : k < 3
  · rw [if_pos (by exact_mod_cast h1), if_pos h1]
  · rw [if_neg (by exact_mod_cast h1), if_neg h1]
    by_cases h2 : k < 5
    · rw [if_pos (by exact_mod_cast h2), if_pos h2]
    · rw [if_neg (by exact_mod_cast h2), if_neg h2]

theorem rateLimitRun_single_record (sid : String) (ws : Int) (ts : List Int)
    (c last : Int) (h : ∀ t ∈ ts, weekStart t = ws) :
    rateLimitRun sid ts [⟨sid, ws, c, last⟩] =
      (List.range ts.length).map
        (fun i : ℕ => (c + (i : Int) + 1, tier_for (c + (i : Int)))) := by
  induction ts generalizing c last with
  | nil => rfl
  | cons t ts ih =>
    have hws : weekStart t = ws := h t (List.mem_cons_self t ts)
    have hfind : findLog [⟨sid, ws, c, last⟩] sid (weekStart t) =
        some ⟨sid, ws, c, last⟩ := by
      rw [hws]
      simp [findLog]
    have hbump : bumpFirst [⟨sid, ws, c, last⟩] sid (weekStart t) t =
        [⟨sid, ws, c + 1, t⟩] := by
      rw [hws]
      simp [bumpFirst]
    unfold rateLimitRun
    rw [check_and_update_rate_limit_of_some _ _ _ _ hfind]
    simp only [hbump]
    rw [ih (c + 1) t (fun u hu => h u (List.mem_cons_of_mem t hu))]
    rw [List.length_cons, List.range_succ_eq_map, List.map_cons, List.map_map]
    refine congrArg₂ _ (by simp) ?_
    refine List.map_congr_left ?_
    intro i _
    have h1 : c + 1 + (i : Int) + 1 = c + ((i : Int) + 1) + 1 := by ring
    have h2 : c + 1 + (i : Int) = c + ((i : Int) + 1) := by ring
    simp only [Function.comp_apply, h1, h2]
    rw [show ((Nat.succ i : ℕ) : Int) = (i : Int) + 1 by push_cast; ring]

/-- Claim C3: starting from a fresh week, the k-th consecutive request in
one Monday-anchored week sees tier full service on calls 1-3, degraded on
calls 4-5 and blocked from call 6 on (with the stored count reaching k);
and a call that arrives blocked (stored count already 5) still increments
the stored count to 6, returns the rate-limited outcome and persists no
gate pass row. -/
theorem C3_weekly_tier_sequence :
    (∀ (sid : String) (ws : Int) (ts : List Int), (∀ t ∈ ts, weekStart t = ws) →
      rateLimitRun sid ts [] = (List.range ts.length).map
        (fun i : ℕ => ((i : Int) + 1,
          if i < 3 then Tier.pdf else if i < 5 then Tier.text else Tier.block))) ∧
    (∀ (db : DB) (env : IssueEnv) (student_id term : String)
        (payment_amount total_fees : ℚ) (requesting_whatsapp_number : Option String)
        (now last : Int) (contact : StudentContact) (whatsapp_number : String),
      student_id ≠ "" → term ≠ "" →
      matchStudentId (pyUpper (pyStrip student_id)) = true →
      matchTermFormat term = true →
      0 < total_fees → 0 ≤ payment_amount →
      db.contacts.find? (fun c => c.student_id == student_id) = some contact →
      pickNumber requesting_whatsapp_number contact.preferred_phone_number
        contact.student_mobile = some whatsapp_number →
      matchWhatsAppNumber whatsapp_number = true →
      env.wa_registered = true →
      db.rate_logs = [⟨student_id, weekStart now, 5, last⟩] →
      generate_gatepass db env student_id term payment_amount total_fees
          requesting_whatsapp_number now =
        (.rateLimited,
          { db with rate_logs := [⟨student_id, weekStart now, 6, now⟩] })) := by
  constructor
  · intro sid ws ts h
    cases ts with
    | nil => rfl
    | cons t ts =>
      have hws : weekStart t = ws := h t (List.mem_cons_self t ts)
      have hnone : findLog [] sid (weekStart t) = none := rfl
      unfold rateLimitRun
      rw [check_and_update_rate_limit_of_none _ _ _ hnone]
      simp only [List.nil_append, hws]
      rw [rateLimitRun_single_record sid ws ts 1 t
        (fun u hu => h u (List.mem_cons_of_mem t hu))]
      rw [List.length_cons, List.range_succ_eq_map, List.map_cons, List.map_map]
      refine congrArg₂ _ (by simp [tier_for]) ?_
      refine List.map_congr_left ?_
      intro i _
      have h1 : (1 : Int) + (i : Int) + 1 = ((i : Int) + 1) + 1 := by ring
      have h2 : (1 : Int) + (i : Int) = (i : Int) + 1 := by ring
      simp only [Function.comp_apply, h1, h2]
      rw [show ((i : Int) + 1) = ((i + 1 : ℕ) : Int) by push_cast; ring, tier_for_nat]
  · intro db env student_id term payment_amount total_fees rn now last contact wn
      hsid hterm hfmt htfmt htot hpay hc hn hwf hreg hlogs
    have hred := generate_gatepass_reaches_decision db env student_id term
      payment_amount total_fees rn now contact wn hsid hterm hfmt htfmt htot hpay
      hc hn hwf hreg
    rw [hred]
    have hfind : findLog db.rate_logs student_id (weekStart now) =
        some ⟨student_id, weekStart now, 5, last⟩ := by
      rw [hlogs]
      simp [findLog]
    rw [check_and_update_rate_limit_of_some _ _ _ _ hfind]
    have hbump : bumpFirst db.rate_logs student_id (weekStart now) now =
        [⟨student_id, weekStart now, 6, now⟩] := by
      rw [hlogs]
      simp [bumpFirst]
    simp only [hbump]
    rw [if_pos (by rfl : tier_for 5 = Tier.block)]

/-- Claim C3 (witness): six same-week calls produce counts 1..6 with tiers
pdf, pdf, pdf, text, text, block, and the sixth issuance request on a
stored count of 5 is rate-limited with no pass row persisted. -/
theorem C3_witness :
    rateLimitRun "SSC1001"
        [utc 2026 3 2, utc 2026 3 3, utc 2026 3 3, utc 2026 3 4, utc 2026 3 5,
          utc 2026 3 6] [] =
      [(1, Tier.pdf), (2, Tier.pdf), (3, Tier.pdf), (4, Tier.text), (5, Tier.text),
        (6, Tier.block)] ∧
    generate_gatepass
        ⟨[sampleContact], [], [⟨"SSC1001", weekStart (utc 2026 3 6), 5, utc 2026 3 5⟩]⟩
        sampleEnv "SSC1001" "2026-1" 600 1000 (some "+263771234567") (utc 2026 3 6) =
      (.rateLimited,
        ⟨[sampleContact], [],
          [⟨"SSC1001", weekStart (utc 2026 3 6), 6, utc 2026 3 6⟩]⟩) := by
  constructor
  · rw [(C3_weekly_tier_sequence).1 "SSC1001" (weekStart (utc 2026 3 2))
      [utc 2026 3 2, utc 2026 3 3, utc 2026 3 3, utc 2026 3 4, utc 2026 3 5,
        utc 2026 3 6] (by decide)]
    decide
  · exact (C3_weekly_tier_sequence).2
      ⟨[sampleContact], [], [⟨"SSC1001", weekStart (utc 2026 3 6), 5, utc 2026 3 5⟩]⟩
      sampleEnv "SSC1001" "2026-1" 600 1000 (some "+263771234567")
      (utc 2026 3 6) (utc 2026 3 5) sampleContact "+263771234567"
      (by decide) (by decide) (by decide) (by decide) (by norm_num) (by norm_num)
      (by decide) (by decide) (by decide) (by decide) rfl

/-! ## C1 : reuse versus reissue -/

/-- Claim C1 (counterexample): subject `SSC1001` holds two still-valid
passes; the most recent one (`newerPass`, 70%) satisfies the claim's reuse
condition for a new 60% request, yet `generate_gatepass` consults only the
*first* stored row (`oldPass`, 50%, and the lookup ignores the term), so it
issues and persists a second (here third) pass instead of reusing. -/
theorem C1_counterexample :
    (newerPass ∈ c1db.passes ∧ utc 2026 3 1 ≤ newerPass.expiry_date ∧
      ((newerPass.payment_percentage : ℚ) ≥ (600 : ℚ) / 1000 * 100) ∧
      oldPass.issued_date < newerPass.issued_date) ∧
    (generate_gatepass c1db sampleEnv "SSC1001" "2026-1" 600 1000
        (some "+263771234567") (utc 2026 3 1)).1 =
      .issued "fresh-id" (utc 2026 4 30 + 86399999999) "+263771234567" ∧
    (generate_gatepass c1db sampleEnv "SSC1001" "2026-1" 600 1000
        (some "+263771234567") (utc 2026 3 1)).2.passes.length = 3 := by
  have hq : ((600 : ℚ) / 1000 * 100) = 60 := by norm_num
  have hred := generate_gatepass_reaches_decision c1db sampleEnv "SSC1001" "2026-1"
    600 1000 (some "+263771234567") (utc 2026 3 1) sampleContact "+263771234567"
    (by decide) (by decide) (by decide) (by decide) (by norm_num) (by norm_num)
    (by decide) (by decide) (by decide) (by decide)
  rw [hq] at hred
  refine ⟨⟨by decide, by decide, ?_, by decide⟩, ?_, ?_⟩
  · rw [hq]
    norm_num [newerPass]
  · rw [hred]
    decide
  · rw [hred]
    decide

/-- Claim C1 (amended): given validated inputs, a resolved contact and
channel, a non-blocked tier and a computed expiry, the decision consults
the *first* stored pass of the subject (any term) with `expiry_date ≥ now`:
if it exists and its recorded percentage is at least the newly computed
one, a reuse result is returned and no row is persisted; otherwise exactly
one new row is appended, with the fresh id, `issued_at = now`, the computed
expiry and the truncated computed percentage. -/
theorem C1_reuse_or_issue (db : DB) (env : IssueEnv)
    (student_id term : String) (payment_amount total_fees : ℚ)
    (requesting_whatsapp_number : Option String) (now : Int)
    (contact : StudentContact) (whatsapp_number : String) (e : Int)
    (hsid : student_id ≠ "") (hterm : term ≠ "")
    (hfmt : matchStudentId (pyUpper (pyStrip student_id)) = true)
    (htfmt : matchTermFormat term = true)
    (htot : 0 < total_fees) (hpay : 0 ≤ payment_amount)
    (hc : db.contacts.find? (fun c => c.student_id == student_id) = some contact)
    (hn : pickNumber requesting_whatsapp_number contact.preferred_phone_number
        contact.student_mobile = some whatsapp_number)
    (hwf : matchWhatsAppNumber whatsapp_number = true)
    (hreg : env.wa_registered = true)
    (htier : (check_and_update_rate_limit db.rate_logs student_id now).2.1 ≠ Tier.block)
    (hexp : calculate_expiry_date term (payment_amount / total_fees * 100) now = .expiry e)
    (hart : env.artifact_ok = true) :
    (∀ ep, db.passes.find?
        (fun p => p.student_id == student_id && decide (now ≤ p.expiry_date)) = some ep →
      (ep.payment_percentage : ℚ) ≥ payment_amount / total_fees * 100 →
      (generate_gatepass db env student_id term payment_amount total_fees
          requesting_whatsapp_number now).2.passes = db.passes ∧
      ((generate_gatepass db env student_id term payment_amount total_fees
          requesting_whatsapp_number now).1 =
          .reusedTextOnly ep.pass_id ep.expiry_date whatsapp_number ∨
       (generate_gatepass db env student_id term payment_amount total_fees
          requesting_whatsapp_number now).1 =
          .reusedResent ep.pass_id ep.expiry_date whatsapp_number)) ∧
    ((db.passes.find?
        (fun p => p.student_id == student_id && decide (now ≤ p.expiry_date)) = none ∨
      (∃ ep, db.passes.find?
          (fun p => p.student_id == student_id && decide (now ≤ p.expiry_date)) = some ep ∧
        (ep.payment_percentage : ℚ) < payment_amount / total_fees * 100)) →
      (generate_gatepass db env student_id term payment_amount total_fees
          requesting_whatsapp_number now).2.passes =
        db.passes ++ [⟨student_id, env.fresh_pass_id, now, e,
          pyInt (payment_amount / total_fees * 100), whatsapp_number⟩] ∧
      ((generate_gatepass db env student_id term payment_amount total_fees
          requesting_whatsapp_number now).1 =
          .issued env.fresh_pass_id e whatsapp_number ∨
       (generate_gatepass db env student_id term payment_amount total_fees
          requesting_whatsapp_number now).1 =
          .issuedTextFallback env.fresh_pass_id e whatsapp_number)) := by
  have hred := generate_gatepass_reaches_decision db env student_id term
    payment_amount total_fees requesting_whatsapp_number now contact whatsapp_number
    hsid hterm hfmt htfmt htot hpay hc hn hwf hreg
  constructor
  · intro ep hfound hge
    rw [hred]
    simp only [if_neg htier, hexp]
    unfold issue_or_reuse
    simp only [hfound, if_pos hge]
    rcases henv : env.presigned_fetch_ok with _ | _
    · simp only [Bool.false_eq_true, if_false]
      simp
    · simp only [if_true]
      rcases htr : (check_and_update_rate_limit db.rate_logs student_id now).2.1 with _ | _ | _
      · simp only [reduceCtorEq, if_false]
        simp
      · simp only [if_true]
        simp
      · exact absurd htr htier
  · intro hcase
    rw [hred]
    simp only [if_neg htier, hexp]
    unfold issue_or_reuse
    rcases hcase with hnone | ⟨ep, hfound, hlt⟩
    · simp only [hnone, hart, Bool.not_true, Bool.false_eq_true, if_false]
      rcases hsend : env.send_ok with _ | _
      · simp only [Bool.false_eq_true, if_false]
        simp
      · simp only [if_true]
        simp
    · simp only [hfound, if_neg (not_le.mpr hlt), hart, Bool.not_true,
        Bool.false_eq_true, if_false]
      rcases hsend : env.send_ok with _ | _
      · simp only [Bool.false_eq_true, if_false]
        simp
      · simp only [if_true]
        simp

/-- Claim C1 (witness): with only the 70% pass stored, a 60% request is
reused with no new row; with the 50% pass stored first, the same request
appends exactly one new row with the computed fields. -/
theorem C1_witness :
    ((generate_gatepass ⟨[sampleContact], [newerPass], []⟩ sampleEnv "SSC1001"
        "2026-1" 600 1000 (some "+263771234567") (utc 2026 3 1)).2.passes =
      [newerPass] ∧
     ((generate_gatepass ⟨[sampleContact], [newerPass], []⟩ sampleEnv "SSC1001"
        "2026-1" 600 1000 (some "+263771234567") (utc 2026 3 1)).1 =
        .reusedTextOnly "newer-pass" (utc 2026 4 2) "+263771234567" ∨
      (generate_gatepass ⟨[sampleContact], [newerPass], []⟩ sampleEnv "SSC1001"
        "2026-1" 600 1000 (some "+263771234567") (utc 2026 3 1)).1 =
        .reusedResent "newer-pass" (utc 2026 4 2) "+263771234567")) ∧
    (generate_gatepass c1db sampleEnv "SSC1001" "2026-1" 600 1000
        (some "+263771234567") (utc 2026 3 1)).2.passes =
      c1db.passes ++ [⟨"SSC1001", "fresh-id", utc 2026 3 1,
        utc 2026 4 30 + 86399999999, 60, "+263771234567"⟩] := by
  have hq : ((600 : ℚ) / 1000 * 100) = 60 := by norm_num
  have hexp : calculate_expiry_date "2026-1" ((600 : ℚ) / 1000 * 100) (utc 2026 3 1) =
      .expiry (utc 2026 4 30 + 86399999999) := by
    rw [hq]
    decide
  constructor
  · have h := (C1_reuse_or_issue ⟨[sampleContact], [newerPass], []⟩ sampleEnv
      "SSC1001" "2026-1" 600 1000 (some "+263771234567") (utc 2026 3 1)
      sampleContact "+263771234567" (utc 2026 4 30 + 86399999999)
      (by decide) (by decide) (by decide) (by decide) (by norm_num) (by norm_num)
      (by decide) (by decide) (by decide) (by decide) (by decide) hexp
      (by decide)).1 newerPass (by decide) (by rw [hq]; norm_num [newerPass])
    exact ⟨h.1, h.2⟩
  · have h := (C1_reuse_or_issue c1db sampleEnv
      "SSC1001" "2026-1" 600 1000 (some "+263771234567") (utc 2026 3 1)
      sampleContact "+263771234567" (utc 2026 4 30 + 86399999999)
      (by decide) (by decide) (by decide) (by decide) (by norm_num) (by norm_num)
      (by decide) (by decide) (by decide) (by decide) (by decide) hexp
      (by decide)).2 (Or.inr ⟨oldPass, by decide, by rw [hq]; norm_num [oldPass]⟩)
    rw [h.1, hq]
    decide

/-! ## C7 : exception handling in a conversation turn -/

/-- Claim C7 (counterexample): a database exception during the contact
lookup of a registered user's turn — which happens *before* the guarded
`try` block — propagates uncaught, and the stored session state stays
`awaiting_term_balance` instead of being reset to `main_menu`. -/
theorem C7_counterexample :
    handle_registered_turn ⟨[sampleContact], [], []⟩ faultTenv [sampleContact]
        "awaiting_term_balance" "menu" "+263771234567" (utc 2026 3 1) =
      .error () ∧
    storedStateAfter "awaiting_term_balance"
        (handle_registered_turn ⟨[sampleContact], [], []⟩ faultTenv [sampleContact]
          "awaiting_term_balance" "menu" "+263771234567" (utc 2026 3 1)) =
      "awaiting_term_balance" ∧
    (("awaiting_term_balance" : String) = "main_menu" → False) := by
  exact ⟨rfl, rfl, by decide⟩

/-- Claim C7 (amended): an unhandled exception raised inside the guarded
region of the turn (everything from the default-term computation onward,
including the issuance steps) is caught: the turn returns the generic
apologetic message naming the admin contact channel and commits the
session state `main_menu`, leaving the database untouched. -/
theorem C7_guarded_fault_resets (db : DB) (tenv : TurnEnv)
    (contacts : List StudentContact) (state0 message_body whatsapp_number : String)
    (now : Int)
    (hnf : tenv.faults.contact_lookup = false)
    (hf : tenv.faults.guarded = true)
    (hids : studentIdsOf contacts ≠ []) :
    handle_registered_turn db tenv contacts state0 message_body whatsapp_number now =
      .ok ⟨some (apologyMsg (fullnameOf contacts)), "main_menu", db, []⟩ ∧
    "admin@shiningsmilescollege.ac.zw".data <:+:
      (apologyMsg (fullnameOf contacts)).data := by
  have hne : (studentIdsOf contacts).isEmpty = false :=
    List.isEmpty_eq_false.mpr hids
  constructor
  · unfold handle_registered_turn
    simp only [hnf, hf, hne, Bool.false_eq_true, if_false, if_true]
  · unfold apologyMsg
    simp only [String.data_append]
    refine infix_extend_right _ (infix_append_right _ ?_)
    decide

/-- Claim C7 (witness): a turn in state `awaiting_term_balance` with a
fault in the guarded region ends with state `main_menu` and the apology. -/
theorem C7_witness :
    handle_registered_turn ⟨[sampleContact], [], []⟩ guardedTenv [sampleContact]
        "awaiting_term_balance" "2025-1" "+263771234567" (utc 2026 3 1) =
      .ok ⟨some (apologyMsg (fullnameOf [sampleContact])), "main_menu",
        ⟨[sampleContact], [], []⟩, []⟩ ∧
    "admin@shiningsmilescollege.ac.zw".data <:+:
      (apologyMsg (fullnameOf [sampleContact])).data :=
  C7_guarded_fault_resets ⟨[sampleContact], [], []⟩ guardedTenv [sampleContact]
    "awaiting_term_balance" "2025-1" "+263771234567" (utc 2026 3 1)
    rfl rfl (by decide)

/-! ## C8 : gate pass request between terms -/

set_option maxRecDepth 100000 in
/-- Claim C8 (counterexample): on 2026-04-15 (between terms 2026-1 and
2026-2) a registered user selecting the gate pass option is denied without
issuance, but the reply is the fallback-term message "Term 2025-3 ended on
15 December 2025" — it does not contain the next upcoming term's start
date 04 May 2026 (the branch that would produce it is unreachable because
the fallback replaces the empty default term). -/
theorem C8_counterexample :
    TERM_START_DATES.find? (termContains (dayNum (utc 2026 4 15))) = none ∧
    nextUpcomingTerm (dayNum (utc 2026 4 15)) = some "2026-2" ∧
    fmtDMY (utc 2026 5 4) = "04 May 2026" ∧
    handle_registered_turn ⟨[sampleContact], [], []⟩ okTenv [sampleContact]
        "main_menu" "3" "+263771234567" (utc 2026 4 15) =
      .ok ⟨some (gatepassTermEndedMsg "Ada Moyo" "2025-3" (utc 2025 12 15)),
        "main_menu", ⟨[sampleContact], [], []⟩, []⟩ ∧
    ¬ ("04 May 2026".data <:+:
        (gatepassTermEndedMsg "Ada Moyo" "2025-3" (utc 2025 12 15)).data) := by
  refine ⟨by decide, by decide, by decide, rfl, by decide⟩

/-- Claim C8 (amended): whenever the current date lies in no configured
term window, the handler substitutes the fallback term `2025-3`; the gate
pass selection then denies without invoking issuance and without touching
the database, replying that term 2025-3 ended (dates after 2025-12-15) or
that it has not started (dates before 2025-09-01). -/
theorem C8_between_terms_denies (db : DB) (tenv : TurnEnv)
    (contacts : List StudentContact) (message_body whatsapp_number : String)
    (now : Int)
    (hnf : tenv.faults.contact_lookup = false)
    (hgf : tenv.faults.guarded = false)
    (hids : studentIdsOf contacts ≠ [])
    (hmsg : message_body = "3" ∨ message_body = "gate pass" ∨
      message_body = "get gate pass")
    (hbetween : TERM_START_DATES.find? (termContains (dayNum now)) = none) :
    (dayNum now < dayNum (utc 2025 9 1) ∨ dayNum (utc 2025 12 15) < dayNum now) ∧
    (dayNum (utc 2025 12 15) < dayNum now →
      handle_registered_turn db tenv contacts "main_menu" message_body
          whatsapp_number now =
        .ok ⟨some (gatepassTermEndedMsg (fullnameOf contacts) "2025-3" (utc 2025 12 15)),
          "main_menu", db, []⟩) ∧
    (dayNum now < dayNum (utc 2025 9 1) →
      handle_registered_turn db tenv contacts "main_menu" message_body
          whatsapp_number now =
        .ok ⟨some (gatepassNotStartedMsg (fullnameOf contacts) "2025-3"),
          "awaiting_term_gatepass", db, []⟩) := by
  have hne : (studentIdsOf contacts).isEmpty = false :=
    List.isEmpty_eq_false.mpr hids
  have hdt : default_term_for (dayNum now) = "2025-3" := by
    unfold default_term_for
    rw [hbetween]
  have hall := List.find?_eq_none.mp hbetween ("2025-3", utc 2025 9 1) (by decide)
  have h3 : lookupTerm TERM_END_DATES "2025-3" = some (utc 2025 12 15) := by decide
  have hs3 : lookupTerm TERM_START_DATES "2025-3" = some (utc 2025 9 1) := by decide
  simp only [termContains, h3, Bool.and_eq_true, decide_eq_true_eq, not_and, not_le] at hall
  have hcmp : dayNum (utc 2025 9 1) ≤ dayNum (utc 2025 12 15) := by decide
  refine ⟨?_, ?_, ?_⟩
  · rcases lt_or_le (dayNum now) (dayNum (utc 2025 9 1)) with h | h
    · exact Or.inl h
    · exact Or.inr (hall h)
  · intro hd
    rcases hmsg with rfl | rfl | rfl <;>
      (unfold handle_registered_turn;
       simp only [hnf, hgf, hne, Bool.false_eq_true, if_false, hdt, h3, hs3,
         Option.isNone_some, Option.getD_some];
       simp only [String.reduceEq, if_true, if_false, or_false, false_or, or_self,
         reduceIte, Option.isNone_some, Bool.not_true, Bool.false_eq_true];
       rw [if_neg (show ¬ ((!matchTermFormat "2025-3") = true) from by decide)];
       rw [if_neg (show ¬ (decide (dayNum now < dayNum (utc 2025 9 1)) = true) from by
         simp only [decide_eq_true_eq]; omega)];
       rw [if_pos (show decide (dayNum (utc 2025 12 15) < dayNum now) = true from by
         simp only [decide_eq_true_eq]; exact hd)])
  · intro hd
    rcases hmsg with rfl | rfl | rfl <;>
      (unfold handle_registered_turn;
       simp only [hnf, hgf, hne, Bool.false_eq_true, if_false, hdt, h3, hs3,
         Option.isNone_some, Option.getD_some];
       simp only [String.reduceEq, if_true, if_false, or_false, false_or, or_self,
         reduceIte, Option.isNone_some, Bool.not_true, Bool.false_eq_true];
       rw [if_neg (show ¬ ((!matchTermFormat "2025-3") = true) from by decide)];
       rw [if_pos (show decide (dayNum now < dayNum (utc 2025 9 1)) = true from by
         simp only [decide_eq_true_eq]; exact hd)])

/-- Claim C8 (witness): on 2026-04-15, selecting "gate pass" yields the
fallback-term denial with no issuance call and no database change. -/
theorem C8_witness :
    handle_registered_turn ⟨[sampleContact], [], []⟩ okTenv [sampleContact]
        "main_menu" "gate pass" "+263771234567" (utc 2026 4 15) =
      .ok ⟨some (gatepassTermEndedMsg (fullnameOf [sampleContact]) "2025-3" (utc 2025 12 15)),
        "main_menu", ⟨[sampleContact], [], []⟩, []⟩ :=
  (C8_between_terms_denies ⟨[sampleContact], [], []⟩ okTenv [sampleContact]
    "gate pass" "+263771234567" (utc 2026 4 15) rfl rfl (by decide)
    (Or.inr (Or.inl rfl)) (by decide)).2.1 (by decide)

example : utc 2026 3 1 = 1772323200000000 := by decide
example : daysToCivil (civilToDays 2026 4 30) = (2026, 4, 30) := by decide
example : weekday (utc 2026 3 2) = 0 := by decide
example :
    calculate_expiry_date "2026-1" 55 (utc 2026 3 1) =
      .expiry (utc 2026 4 30 + 86399999999) := by decide
example :
    calculate_expiry_date "2026-1" 70 (utc 2026 3 1) = .expiry (utc 2026 3 3) := by
  decide

end SSWA

